import Mathlib

/-!
Verification of the GMB dashboard review-sentiment pipeline.

Shallow embedding of the core pipeline of `gmb_dashboard.py`:
`analyze_sentiment` (lines 429-439), `generate_sentiment_summary`
(lines 441-463), `create_pdf_report` (lines 465-509) and
`export_to_excel` (lines 511-531).

External libraries are treated as black boxes, as the design document
dictates ("external dependency ... is treated as a black box meeting the
contract"): the TextBlob polarity scorer is a parameter
`polarity : String → ℚ` (scores are modelled as rationals; the code only
compares them against the fixed thresholds 0.1 and -0.1), the TextBlob
word tokenizer is a parameter `tokenize : String → List String`, pandas
DataFrames passed through verbatim are an opaque type parameter, and the
reportlab / openpyxl writers are modelled by the structured content the
code hands them (flowables, sheets).
-/

/-- A review record, one row of the `reviews_df` DataFrame handed to
`generate_sentiment_summary`: columns `id`, `author`, `rating`, `text`,
`date`, plus the derived `sentiment` column (a plain string, assigned
elsewhere via `reviews['text'].apply(analyze_sentiment)`). The rating is
modelled as a rational so the pandas `.mean()` is exact. -/
structure Review where
  id : Nat
  author : String
  rating : ℚ
  text : String
  date : String
  sentiment : String
deriving DecidableEq, Repr

/-- Function `analyze_sentiment` (lines 429-439): score the text with the polarity
scorer, then threshold: `> 0.1` → Positive, `< -0.1` → Negative, else
Neutral. The scorer is the black-box parameter `polarity`. -/
def analyze_sentiment (polarity : String → ℚ) (text : String) : String :=
  if polarity text > 1/10 then "Positive"
  else if polarity text < -(1/10) then "Negative"
  else "Neutral"

/-- Pandas `pd.Series(l).mean()`: arithmetic mean, sum divided by length. -/
def listMean (l : List ℚ) : ℚ :=
  l.sum / l.length

/-- The qualifying word list of line 453:
`[word.lower() for word in blob.words if len(word) > 3]`, where the blob
is built over `' '.join(texts)` (line 449). Tokens of length ≤ 3 are
discarded (the length test runs on the raw token), the survivors are
lowercased. -/
def qualifying_words (tokenize : String → List String) (texts : List String) : List String :=
  ((tokenize (String.intercalate " " texts)).filter (fun w => w.length > 3)).map
    (fun w => w.toLower)

/-- The distinct elements of `l` in order of first occurrence — the index
order of the hash table behind `pd.Series(l).value_counts()`. -/
def firstOccurrences (l : List String) : List String :=
  l.foldl (fun acc w => if w ∈ acc then acc else acc ++ [w]) []

/-- Stable insertion step for a descending sort by `key`: `x` (coming from
earlier in the input) passes over strictly larger keys only, so elements
with equal keys keep their relative order. -/
def insertDesc (key : String → Nat) (x : String) : List String → List String
  | [] => [x]
  | y :: ys => if key y > key x then y :: insertDesc key x ys else x :: y :: ys

/-- Stable descending sort by `key` (insertion sort). -/
def sortDesc (key : String → Nat) : List String → List String
  | [] => []
  | x :: xs => insertDesc key x (sortDesc key xs)

/-- Pandas `pd.Series(words).value_counts().head(5).index.tolist()` (lines
454, 459): distinct words ranked by descending frequency, ties kept in
first-occurrence order, truncated to the top 5. -/
def value_counts_top5 (words : List String) : List String :=
  (sortDesc (fun w => words.count w) (firstOccurrences words)).take 5

/-- The per-label summary dict built at lines 456-461. -/
structure SentimentSummary where
  count : Nat
  avg_rating : ℚ
  keywords : List String
  sample_review : String
deriving DecidableEq, Repr

/-- The summary value stored at `summaries[sentiment]` (lines 456-461):
`count = len(sentiment_reviews)`, `avg_rating = rating.mean()`,
`keywords` from the qualifying words of the joined texts,
`sample_review = sentiment_reviews.iloc[0]['text'] if len > 0 else ""`. -/
def mkSummary (tokenize : String → List String) (sentiment_reviews : List Review) :
    SentimentSummary where
  count := sentiment_reviews.length
  avg_rating := listMean (sentiment_reviews.map (fun r => r.rating))
  keywords := value_counts_top5 (qualifying_words tokenize
    (sentiment_reviews.map (fun r => r.text)))
  sample_review :=
    match sentiment_reviews with
    | [] => ""
    | r :: _ => r.text

/-- One iteration of the loop body at lines 445-461: filter the rows whose
`sentiment` column equals the label, and emit an entry only when the
filtered set is non-empty (`if len(sentiment_reviews) > 0`). -/
def summarize_label (tokenize : String → List String) (reviews : List Review)
    (sentiment : String) : Option (String × SentimentSummary) :=
  if (reviews.filter (fun r => r.sentiment == sentiment)).length > 0 then
    some (sentiment, mkSummary tokenize (reviews.filter (fun r => r.sentiment == sentiment)))
  else none

/-- Function `generate_sentiment_summary` (lines 441-463): iterate over the labels
in the fixed order Positive, Negative, Neutral, inserting entries in that
order (a Python dict preserves insertion order, so the result is an
association list). -/
def generate_sentiment_summary (tokenize : String → List String) (reviews : List Review) :
    List (String × SentimentSummary) :=
  ["Positive", "Negative", "Neutral"].filterMap (summarize_label tokenize reviews)

/-- Python `s.replace('_', ' ')` for the single characters used at line
492: a character-wise substitution. -/
def underscoresToSpaces (s : String) : String :=
  String.mk (s.data.map (fun c => if c = '_' then ' ' else c))

/-- Python `s.title()`: walking left to right, a cased character that
follows a non-cased one is uppercased, every other cased character is
lowercased (CPython title algorithm, with alphabetic standing in for
cased, which agrees on the ASCII metric keys used here). -/
def pyTitle (s : String) : String :=
  String.mk (s.data.foldl
    (fun (acc : List Char × Bool) c =>
      (acc.1 ++ [if acc.2 then c.toLower else c.toUpper], c.isAlpha))
    ([], false)).1

/-- The reportlab flowables appended to `story` in `create_pdf_report`:
paragraphs (text with a style name), spacers, and a table given by its
rows. The visual `TableStyle` of lines 495-504 carries no data and is
omitted. -/
inductive Flowable where
  | paragraph (text : String) (style : String)
  | spacer (width height : Nat)
  | table (rows : List (List String))
deriving DecidableEq, Repr

/-- Recognizer for the table flowable. -/
def Flowable.isTable : Flowable → Bool
  | .table _ => true
  | _ => false

/-- The `data` dict handed to `create_pdf_report`: an optional
`date_range` string and an optional `summary_metrics` mapping (a Python
dict, i.e. an association list in insertion order). Metric values keep
their Python type behind the opaque parameter `V`; the code only ever
applies `str` to them, modelled by the `pyStr` parameter. -/
structure ReportData (V : Type) where
  date_range : Option String
  summary_metrics : Option (List (String × V))

/-- One metrics-table row of line 492:
`[key.replace('_', ' ').title(), str(value)]`. -/
def metricsRow {V : Type} (pyStr : V → String) (kv : String × V) : List String :=
  [pyTitle (underscoresToSpaces kv.1), pyStr kv.2]

/-- Function `create_pdf_report` (lines 465-509), modelled by the flowable list
built into `story`: title paragraph, spacer, `Report Period` paragraph
(`data.get('date_range', 'N/A')`), spacer, and — only when
`'summary_metrics' in data` — the `Summary Metrics` heading and the
metrics table whose first row is the `['Metric', 'Value']` header
followed by one row per mapping entry in iteration order. -/
def create_pdf_report {V : Type} (pyStr : V → String) (data : ReportData V) :
    List Flowable :=
  [Flowable.paragraph "Google My Business Analytics Report" "CustomTitle",
   Flowable.spacer 1 12,
   Flowable.paragraph ("Report Period: " ++ data.date_range.getD "N/A") "Normal",
   Flowable.spacer 1 12]
  ++ match data.summary_metrics with
     | some metrics =>
       [Flowable.paragraph "Summary Metrics" "Heading2",
        Flowable.table ([["Metric", "Value"]] ++ metrics.map (metricsRow pyStr))]
     | none => []

/-- The `data` dict handed to `export_to_excel`: the optional
`summary_metrics` mapping plus the optional `insights_data` and
`reviews_data` DataFrames, which the code writes through verbatim and
are therefore an opaque type parameter `Df`. -/
structure ExportData (V Df : Type) where
  summary_metrics : Option (List (String × V))
  insights_data : Option Df
  reviews_data : Option Df

/-- Content of one written sheet: either the two-column Metric/Value
summary frame built from `list(data['summary_metrics'].items())`
(lines 518-520), or a DataFrame written as-is. -/
inductive Sheet (V Df : Type) where
  | summaryTable (metrics : List (String × V))
  | dataFrame (df : Df)
deriving DecidableEq

/-- Function `export_to_excel` (lines 511-531), modelled by the ordered list of
(sheet name, sheet content) pairs written to the workbook: a `Summary`
sheet when `'summary_metrics' in data`, an `Insights` sheet when
`'insights_data' in data`, a `Reviews` sheet when `'reviews_data' in
data`, and nothing else. -/
def export_to_excel {V Df : Type} (data : ExportData V Df) :
    List (String × Sheet V Df) :=
  (match data.summary_metrics with
   | some m => [("Summary", Sheet.summaryTable m)]
   | none => [])
  ++ (match data.insights_data with
      | some df => [("Insights", Sheet.dataFrame df)]
      | none => [])
  ++ (match data.reviews_data with
      | some df => [("Reviews", Sheet.dataFrame df)]
      | none => [])

/-! ## Helper lemmas -/

/-- Every emitted entry comes from the guarded branch of the loop body:
its key is the label the loop was at, the filtered set is non-empty, and
the value is the summary record of that filtered set. -/
lemma mem_generate_sentiment_summary
    {tokenize : String → List String} {reviews : List Review}
    {label : String} {s : SentimentSummary}
    (h : (label, s) ∈ generate_sentiment_summary tokenize reviews) :
    (reviews.filter (fun r => r.sentiment == label)).length > 0 ∧
      s = mkSummary tokenize (reviews.filter (fun r => r.sentiment == label)) := by
  unfold generate_sentiment_summary at h
  rw [List.mem_filterMap] at h
  obtain ⟨l, _, hfl⟩ := h
  unfold summarize_label at hfl
  by_cases hpos : (reviews.filter (fun r => r.sentiment == l)).length > 0
  · rw [if_pos hpos] at hfl
    obtain ⟨hl, hs⟩ := Prod.mk.injEq .. ▸ Option.some.inj hfl
    subst hl
    exact ⟨hpos, hs.symm⟩
  · rw [if_neg hpos] at hfl
    exact absurd hfl (by simp)

/-- The mean of a non-empty list lies between any lower bound and any
upper bound of its elements. -/
lemma listMean_bounds {l : List ℚ} (hne : l ≠ []) {a b : ℚ}
    (ha : ∀ x ∈ l, a ≤ x) (hb : ∀ x ∈ l, x ≤ b) :
    a ≤ listMean l ∧ listMean l ≤ b := by
  have hlen : 0 < (l.length : ℚ) := by
    have : 0 < l.length := List.length_pos.mpr hne
    exact_mod_cast this
  unfold listMean
  constructor
  · rw [le_div_iff₀ hlen]
    have := List.card_nsmul_le_sum l a ha
    rw [nsmul_eq_mul] at this
    linarith [this]
  · rw [div_le_iff₀ hlen]
    have := List.sum_le_card_nsmul l b hb
    rw [nsmul_eq_mul] at this
    linarith [this]

lemma length_insertDesc (key : String → Nat) (x : String) (l : List String) :
    (insertDesc key x l).length = l.length + 1 := by
  induction l with
  | nil => rfl
  | cons y ys ih =>
    unfold insertDesc
    by_cases h : key y > key x
    · rw [if_pos h]
      simp [ih]
    · rw [if_neg h]
      simp

lemma length_sortDesc (key : String → Nat) (l : List String) :
    (sortDesc key l).length = l.length := by
  induction l with
  | nil => rfl
  | cons x xs ih =>
    unfold sortDesc
    rw [length_insertDesc, ih, List.length_cons]

/-- The first-occurrence fold only ever appends elements not already
present, so it preserves `Nodup` of the accumulator. -/
lemma nodup_firstOccurrences_foldl (l : List String) :
    ∀ acc : List String, acc.Nodup →
      (l.foldl (fun acc w => if w ∈ acc then acc else acc ++ [w]) acc).Nodup := by
  induction l with
  | nil => intro acc hacc; exact hacc
  | cons w ws ih =>
    intro acc hacc
    rw [List.foldl_cons]
    by_cases hmem : w ∈ acc
    · rw [if_pos hmem]; exact ih acc hacc
    · rw [if_neg hmem]
      refine ih _ (List.Nodup.append hacc (List.nodup_singleton w) ?_)
      intro x hx hx1
      rw [List.mem_singleton] at hx1
      exact hmem (hx1 ▸ hx)

lemma nodup_firstOccurrences (l : List String) : (firstOccurrences l).Nodup :=
  nodup_firstOccurrences_foldl l [] List.nodup_nil

/-- The head of a filtered list is the first element of the original list
satisfying the predicate. -/
lemma find?_of_filter_eq_cons {α : Type} (p : α → Bool) :
    ∀ (l : List α) (r : α) (rs : List α),
      l.filter p = r :: rs → l.find? p = some r := by
  intro l
  induction l with
  | nil => intro r rs h; simp at h
  | cons x xs ih =>
    intro r rs h
    by_cases hx : p x
    · rw [List.filter_cons_of_pos hx] at h
      rw [List.find?_cons_of_pos _ hx]
      exact congrArg some (List.cons.injEq .. ▸ h).1
    · rw [List.filter_cons_of_neg (by simpa using hx)] at h
      rw [List.find?_cons_of_neg _ (by simpa using hx)]
      exact ih r rs h

/-- Each label contributes its filtered-set size to the sum of emitted
counts: the guarded branch emits exactly that size, and the omitted
branch corresponds to a size of zero. -/
lemma sum_counts_filterMap (tokenize : String → List String) (reviews : List Review)
    (lbls : List String) :
    ((lbls.filterMap (summarize_label tokenize reviews)).map (fun e => e.2.count)).sum
      = (lbls.map (fun l => (reviews.filter (fun r => r.sentiment == l)).length)).sum := by
  induction lbls with
  | nil => rfl
  | cons l ls ih =>
    rw [List.map_cons, List.sum_cons]
    by_cases hpos : (reviews.filter (fun r => r.sentiment == l)).length > 0
    · have hfl : summarize_label tokenize reviews l =
          some (l, mkSummary tokenize (reviews.filter (fun r => r.sentiment == l))) := by
        unfold summarize_label
        rw [if_pos hpos]
      rw [List.filterMap_cons, hfl]
      simp only [List.map_cons, List.sum_cons, ih, mkSummary]
    · have hfl : summarize_label tokenize reviews l = none := by
        unfold summarize_label
        rw [if_neg hpos]
      rw [List.filterMap_cons, hfl, ih, Nat.eq_zero_of_not_pos hpos, Nat.zero_add]

/-- When every review carries one of the three labels, the three filtered
sets partition the batch. -/
lemma length_filter_tripartition (reviews : List Review)
    (h : ∀ r ∈ reviews, r.sentiment = "Positive" ∨ r.sentiment = "Negative" ∨
      r.sentiment = "Neutral") :
    (reviews.filter (fun r => r.sentiment == "Positive")).length
      + (reviews.filter (fun r => r.sentiment == "Negative")).length
      + (reviews.filter (fun r => r.sentiment == "Neutral")).length
      = reviews.length := by
  induction reviews with
  | nil => rfl
  | cons r rs ih =>
    have hr := h r (List.mem_cons_self r rs)
    have ihr := ih (fun x hx => h x (List.mem_cons_of_mem r hx))
    rcases hr with h1 | h1 | h1 <;> simp [List.filter_cons, h1] <;> omega

/-! ## Concrete inputs used by the witnesses -/

/-- A tokenizer that returns no words; keyword extraction is then empty. -/
def tokNone : String → List String := fun _ => []

/-- A whitespace tokenizer standing in for the TextBlob word list. -/
def tokWords : String → List String := fun s => s.splitOn " "

/-- A one-row positive review (demo review 4 of the source). -/
def revPos : Review :=
  ⟨4, "Lisa K.", 5, "Amazing! Best customer service", "2024-07-12", "Positive"⟩

/-- A one-row negative review (demo review 6 of the source). -/
def revNeg : Review :=
  ⟨6, "Emma B.", 1, "Terrible experience", "2024-07-08", "Negative"⟩

/-- The single-positive-review batch produces exactly the `Positive`
entry; shared membership fact for the witnesses below. -/
lemma mem_generate_revPos (tokenize : String → List String) :
    ("Positive", mkSummary tokenize [revPos]) ∈
      generate_sentiment_summary tokenize [revPos] := by
  simp [generate_sentiment_summary, summarize_label, revPos]

/-! ## Claim theorems -/

/-- C1: for every text (and every polarity scorer), `analyze_sentiment`
returns exactly one of the three labels, by the fixed thresholds:
Positive when the polarity exceeds 0.1, Negative when it is below -0.1,
Neutral otherwise — in particular Neutral when the polarity is 0, the
score of empty text; the function is total, with no failure branch. -/
theorem analyze_sentiment_three_labels (polarity : String → ℚ) (text : String) :
    (analyze_sentiment polarity text = "Positive" ∨
      analyze_sentiment polarity text = "Negative" ∨
      analyze_sentiment polarity text = "Neutral") ∧
    (polarity text > 1/10 → analyze_sentiment polarity text = "Positive") ∧
    (polarity text < -(1/10) → analyze_sentiment polarity text = "Negative") ∧
    (¬ polarity text > 1/10 → ¬ polarity text < -(1/10) →
      analyze_sentiment polarity text = "Neutral") ∧
    (polarity text = 0 → analyze_sentiment polarity text = "Neutral") := by
  unfold analyze_sentiment
  by_cases h1 : polarity text > 1/10
  · rw [if_pos h1]
    refine ⟨Or.inl rfl, fun _ => rfl, fun h2 => absurd h1 (by linarith),
      fun hn _ => absurd h1 hn, fun h0 => ?_⟩
    rw [h0] at h1
    norm_num at h1
  · rw [if_neg h1]
    by_cases h2 : polarity text < -(1/10)
    · rw [if_pos h2]
      refine ⟨Or.inr (Or.inl rfl), fun h => absurd h h1, fun _ => rfl,
        fun _ hn2 => absurd h2 hn2, fun h0 => ?_⟩
      rw [h0] at h2
      norm_num at h2
    · rw [if_neg h2]
      exact ⟨Or.inr (Or.inr rfl), fun h => absurd h h1, fun h => absurd h h2,
        fun _ _ => rfl, fun _ => rfl⟩

/-- Witness for C1 at the zero scorer and empty text. -/
theorem analyze_sentiment_three_labels_witness :
    analyze_sentiment (fun _ => (0 : ℚ)) "" = "Neutral" :=
  (analyze_sentiment_three_labels (fun _ => (0 : ℚ)) "").2.2.2.2 rfl

/-- C2: function `generate_sentiment_summary` omits every label whose filtered set
is empty — no zero-count entry is ever emitted — and on the empty review
batch the result mapping is empty rather than an error. -/
theorem generate_sentiment_summary_omits_empty (tokenize : String → List String)
    (reviews : List Review) :
    (∀ label s, reviews.filter (fun r => r.sentiment == label) = [] →
        (label, s) ∉ generate_sentiment_summary tokenize reviews) ∧
    generate_sentiment_summary tokenize [] = [] := by
  refine ⟨fun label s hfilt hmem => ?_, rfl⟩
  obtain ⟨hpos, _⟩ := mem_generate_sentiment_summary hmem
  rw [hfilt] at hpos
  simp at hpos

/-- Witness for C2: no label at all appears for the empty batch. -/
theorem generate_sentiment_summary_omits_empty_witness :
    ("Positive", mkSummary tokNone []) ∉ generate_sentiment_summary tokNone [] ∧
      generate_sentiment_summary tokNone [] = [] :=
  ⟨(generate_sentiment_summary_omits_empty tokNone []).1 "Positive" _ rfl,
    (generate_sentiment_summary_omits_empty tokNone []).2⟩

/-- C10: every emitted entry comes from a non-empty filtered set: its
count is at least 1, and the mean behind `avg_rating` is taken over a
non-empty (hence non-zero-length) rating list, so the division-by-zero
case of the average is unreachable for emitted entries. -/
theorem generate_sentiment_summary_entries_nonempty
    (tokenize : String → List String) (reviews : List Review)
    (label : String) (s : SentimentSummary)
    (h : (label, s) ∈ generate_sentiment_summary tokenize reviews) :
    1 ≤ s.count ∧
    s.count = (reviews.filter (fun r => r.sentiment == label)).length ∧
    reviews.filter (fun r => r.sentiment == label) ≠ [] ∧
    ((reviews.filter (fun r => r.sentiment == label)).map (fun r => r.rating)).length ≠ 0 ∧
    s.avg_rating =
      listMean ((reviews.filter (fun r => r.sentiment == label)).map (fun r => r.rating)) := by
  obtain ⟨hpos, hs⟩ := mem_generate_sentiment_summary h
  subst hs
  refine ⟨hpos, rfl, List.length_pos.mp hpos, ?_, rfl⟩
  rw [List.length_map]
  omega

/-- Witness for C10 on the single-positive-review batch. -/
theorem generate_sentiment_summary_entries_nonempty_witness :
    1 ≤ (mkSummary tokNone [revPos]).count :=
  (generate_sentiment_summary_entries_nonempty tokNone [revPos] "Positive" _
    (mem_generate_revPos tokNone)).1

/-- C4: for every label present in the output, `avg_rating` is the
arithmetic mean of the ratings of the label's filtered set, and
therefore lies between any lower and any upper bound of those ratings —
in particular within [minimum rating, maximum rating] of the set. -/
theorem generate_sentiment_summary_avg_rating_bounds
    (tokenize : String → List String) (reviews : List Review)
    (label : String) (s : SentimentSummary)
    (h : (label, s) ∈ generate_sentiment_summary tokenize reviews) :
    s.avg_rating =
      listMean ((reviews.filter (fun r => r.sentiment == label)).map (fun r => r.rating)) ∧
    ∀ a b : ℚ,
      (∀ r ∈ reviews.filter (fun r => r.sentiment == label), a ≤ r.rating) →
      (∀ r ∈ reviews.filter (fun r => r.sentiment == label), r.rating ≤ b) →
      a ≤ s.avg_rating ∧ s.avg_rating ≤ b := by
  obtain ⟨hpos, hs⟩ := mem_generate_sentiment_summary h
  subst hs
  refine ⟨rfl, fun a b ha hb => ?_⟩
  have hne : (reviews.filter (fun r => r.sentiment == label)).map (fun r => r.rating) ≠ [] := by
    intro hemp
    rw [List.map_eq_nil_iff] at hemp
    rw [hemp] at hpos
    simp at hpos
  refine listMean_bounds hne ?_ ?_
  · intro x hx
    rw [List.mem_map] at hx
    obtain ⟨r, hr, rfl⟩ := hx
    exact ha r hr
  · intro x hx
    rw [List.mem_map] at hx
    obtain ⟨r, hr, rfl⟩ := hx
    exact hb r hr

/-- Witness for C4: the lone 5-star positive review pins the average
between 5 and 5. -/
theorem generate_sentiment_summary_avg_rating_bounds_witness :
    (5 : ℚ) ≤ (mkSummary tokNone [revPos]).avg_rating ∧
      (mkSummary tokNone [revPos]).avg_rating ≤ 5 :=
  (generate_sentiment_summary_avg_rating_bounds tokNone [revPos] "Positive" _
    (mem_generate_revPos tokNone)).2 5 5
    (by intro r hr; simp [revPos] at hr; simp [hr, revPos])
    (by intro r hr; simp [revPos] at hr; simp [hr, revPos])

/-- C5: for every label present in the output, the keyword list is built
by tokenizing the joined filtered texts, discarding tokens of length
≤ 3, lowercasing, ranking by descending frequency with ties in
first-occurrence order and taking the top 5; consequently its length is
at most 5 and at most the number of distinct qualifying tokens. -/
theorem generate_sentiment_summary_keywords
    (tokenize : String → List String) (reviews : List Review)
    (label : String) (s : SentimentSummary)
    (h : (label, s) ∈ generate_sentiment_summary tokenize reviews) :
    s.keywords = value_counts_top5 (qualifying_words tokenize
      ((reviews.filter (fun r => r.sentiment == label)).map (fun r => r.text))) ∧
    s.keywords.length ≤ 5 ∧
    s.keywords.length ≤ (firstOccurrences (qualifying_words tokenize
      ((reviews.filter (fun r => r.sentiment == label)).map (fun r => r.text)))).length ∧
    (firstOccurrences (qualifying_words tokenize
      ((reviews.filter (fun r => r.sentiment == label)).map (fun r => r.text)))).Nodup := by
  obtain ⟨_, hs⟩ := mem_generate_sentiment_summary h
  subst hs
  refine ⟨rfl, ?_, ?_, nodup_firstOccurrences _⟩
  · show (value_counts_top5 _).length ≤ 5
    unfold value_counts_top5
    rw [List.length_take]
    exact min_le_left _ _
  · show (value_counts_top5 _).length ≤ _
    unfold value_counts_top5
    rw [List.length_take, length_sortDesc]
    exact min_le_right _ _

/-- Witness for C5 with the whitespace tokenizer on the positive batch. -/
theorem generate_sentiment_summary_keywords_witness :
    (mkSummary tokWords [revPos]).keywords.length ≤ 5 :=
  (generate_sentiment_summary_keywords tokWords [revPos] "Positive" _
    (mem_generate_revPos tokWords)).2.1

/-- C6: for every label present in the output, `sample_review` is the
text of the first review with that label in the original pre-filter
order of the input — the one `find?` returns. -/
theorem generate_sentiment_summary_sample_review
    (tokenize : String → List String) (reviews : List Review)
    (label : String) (s : SentimentSummary)
    (h : (label, s) ∈ generate_sentiment_summary tokenize reviews) :
    ∃ r : Review, reviews.find? (fun r => r.sentiment == label) = some r ∧
      s.sample_review = r.text := by
  obtain ⟨hpos, hs⟩ := mem_generate_sentiment_summary h
  subst hs
  obtain ⟨r, rs, hcons⟩ : ∃ r rs, reviews.filter (fun r => r.sentiment == label) = r :: rs := by
    cases hfil : reviews.filter (fun r => r.sentiment == label) with
    | nil => rw [hfil] at hpos; simp at hpos
    | cons r rs => exact ⟨r, rs, rfl⟩
  refine ⟨r, find?_of_filter_eq_cons _ reviews r rs hcons, ?_⟩
  simp only [mkSummary, hcons]

/-- Witness for C6 on the single-positive-review batch. -/
theorem generate_sentiment_summary_sample_review_witness :
    ∃ r : Review, [revPos].find? (fun r => r.sentiment == "Positive") = some r ∧
      (mkSummary tokNone [revPos]).sample_review = r.text :=
  generate_sentiment_summary_sample_review tokNone [revPos] "Positive" _
    (mem_generate_revPos tokNone)

/-- C3: when every review's `sentiment` field equals the classifier's
output on its text, the counts of the emitted entries sum to the total
number of input reviews. -/
theorem generate_sentiment_summary_counts_total
    (tokenize : String → List String) (polarity : String → ℚ) (reviews : List Review)
    (h : ∀ r ∈ reviews, r.sentiment = analyze_sentiment polarity r.text) :
    ((generate_sentiment_summary tokenize reviews).map (fun e => e.2.count)).sum
      = reviews.length := by
  have h3 : ∀ r ∈ reviews, r.sentiment = "Positive" ∨ r.sentiment = "Negative" ∨
      r.sentiment = "Neutral" := by
    intro r hr
    rw [h r hr]
    unfold analyze_sentiment
    by_cases h1 : polarity r.text > 1/10
    · rw [if_pos h1]
      exact Or.inl rfl
    · rw [if_neg h1]
      by_cases h2 : polarity r.text < -(1/10)
      · rw [if_pos h2]
        exact Or.inr (Or.inl rfl)
      · rw [if_neg h2]
        exact Or.inr (Or.inr rfl)
  unfold generate_sentiment_summary
  rw [sum_counts_filterMap]
  simp only [List.map_cons, List.map_nil, List.sum_cons, List.sum_nil]
  have := length_filter_tripartition reviews h3
  omega

/-- Witness for C3: a two-review batch labelled by a concrete scorer sums
to 2. -/
theorem generate_sentiment_summary_counts_total_witness :
    ((generate_sentiment_summary tokNone [revPos, revNeg]).map
      (fun e => e.2.count)).sum = 2 :=
  generate_sentiment_summary_counts_total tokNone
    (fun t => if t = "Amazing! Best customer service" then 1 else
      if t = "Terrible experience" then -1 else 0)
    [revPos, revNeg]
    (by
      intro r hr
      simp only [List.mem_cons, List.not_mem_nil, or_false] at hr
      rcases hr with h | h
      · subst h; norm_num [revPos, analyze_sentiment]
      · subst h
        have hne : ¬ ("Terrible experience" = "Amazing! Best customer service") := by
          decide
        norm_num [revNeg, analyze_sentiment, hne])

/-- C7: whenever the payload carries a `summary_metrics` mapping, the
document contains exactly one table: header row `Metric`/`Value`
followed by one row per mapping entry, in iteration order, with the key
underscore-split and title-cased and the value in its string form. -/
theorem create_pdf_report_metrics_table {V : Type} (pyStr : V → String)
    (data : ReportData V) (metrics : List (String × V))
    (h : data.summary_metrics = some metrics) :
    (create_pdf_report pyStr data).filter Flowable.isTable
      = [Flowable.table (["Metric", "Value"] :: metrics.map (metricsRow pyStr))] := by
  unfold create_pdf_report
  rw [h]
  simp [Flowable.isTable, List.filter_append]

/-- Witness for C7: the mapping of the spec's worked example renders rows
`Total Reviews / 6` then `Average Rating / 3.33`. -/
theorem create_pdf_report_metrics_table_witness :
    (create_pdf_report (fun v : String => v)
        ⟨some "2024-07-01 to 2024-07-31",
          some [("total_reviews", "6"), ("average_rating", "3.33")]⟩).filter
        Flowable.isTable
      = [Flowable.table [["Metric", "Value"], ["Total Reviews", "6"],
          ["Average Rating", "3.33"]]] := by
  rw [create_pdf_report_metrics_table (fun v : String => v) _
    [("total_reviews", "6"), ("average_rating", "3.33")] rfl]
  decide

/-- C8: a payload whose metrics mapping is empty still yields the full
document — title, date line, `Summary Metrics` heading — with the
metrics table present and consisting of the header row alone, rather
than failing or omitting the table. -/
theorem create_pdf_report_empty_metrics {V : Type} (pyStr : V → String)
    (data : ReportData V) (h : data.summary_metrics = some []) :
    create_pdf_report pyStr data
      = [Flowable.paragraph "Google My Business Analytics Report" "CustomTitle",
         Flowable.spacer 1 12,
         Flowable.paragraph ("Report Period: " ++ data.date_range.getD "N/A") "Normal",
         Flowable.spacer 1 12,
         Flowable.paragraph "Summary Metrics" "Heading2",
         Flowable.table [["Metric", "Value"]]] ∧
    Flowable.table [["Metric", "Value"]] ∈ create_pdf_report pyStr data := by
  unfold create_pdf_report
  rw [h]
  exact ⟨rfl, by simp⟩

/-- Witness for C8 at a payload with an empty metrics mapping. -/
theorem create_pdf_report_empty_metrics_witness :
    Flowable.table [["Metric", "Value"]] ∈
      create_pdf_report (fun _ : Unit => "") ⟨none, some []⟩ :=
  (create_pdf_report_empty_metrics (fun _ : Unit => "") ⟨none, some []⟩ rfl).2

/-- C9: the workbook gets exactly one sheet per present payload section —
`Summary`, then `Insights`, then `Reviews` — and no sheet for an absent
section; a payload with only `summary_metrics` yields solely the
`Summary` sheet. -/
theorem export_to_excel_sheets {V Df : Type} (data : ExportData V Df) :
    ((export_to_excel data).map Prod.fst
      = (if data.summary_metrics.isSome then ["Summary"] else [])
        ++ (if data.insights_data.isSome then ["Insights"] else [])
        ++ (if data.reviews_data.isSome then ["Reviews"] else [])) ∧
    (∀ m, data.summary_metrics = some m → data.insights_data = none →
      data.reviews_data = none →
      export_to_excel data = [("Summary", Sheet.summaryTable m)]) := by
  constructor
  · unfold export_to_excel
    cases hs : data.summary_metrics <;> cases hi : data.insights_data <;>
      cases hr : data.reviews_data <;> simp
  · intro m hm hi hr
    unfold export_to_excel
    rw [hm, hi, hr]
    rfl

/-- Witness for C9: a payload with only `summary_metrics` produces solely
the `Summary` sheet. -/
theorem export_to_excel_sheets_witness :
    export_to_excel (⟨some [("total_reviews", "6")], none, none⟩ : ExportData String Unit)
      = [("Summary", Sheet.summaryTable [("total_reviews", "6")])] :=
  (export_to_excel_sheets
    (⟨some [("total_reviews", "6")], none, none⟩ : ExportData String Unit)).2
    [("total_reviews", "6")] rfl rfl rfl
